import Mathlib

/-!
Verification of the `list_resources_in_tenancy` scripts
(`tag_resources_in_tenancy.py` and `list_all_capres.py`).

The Python code is shallowly embedded: Python dicts become association
lists with `dictGet` / `dictSet` / `dictPop` mirroring `d[k]`, `d[k] = v`
and `d.pop(k, None)`; the module-level globals `data` and `warnings`
(plus the observable update calls and printed lines) are threaded through
the handlers as an explicit `WalkState`; fallible listing calls are
`Except String (List Resource)` values supplied by an `Oracle`, where
`Except.error code` models `oci.exceptions.ServiceError` with that code
and a propagated (fatal) exception becomes `Except.error` of the wrapped
`RuntimeError` message.
-/

/-- Python dict lookup `m[k]` / `k in m`, on an association list. -/
def dictGet {α : Type} (m : List (String × α)) (k : String) : Option α :=
  match m with
  | [] => none
  | (k', v) :: rest => if k' = k then some v else dictGet rest k

/-- Python dict assignment `m[k] = v`: replace the entry if present, else append. -/
def dictSet {α : Type} (m : List (String × α)) (k : String) (v : α) :
    List (String × α) :=
  match m with
  | [] => [(k, v)]
  | (k', v') :: rest => if k' = k then (k, v) :: rest else (k', v') :: dictSet rest k v

/-- Python `m.pop(k, None)`: remove the entry for `k`. -/
def dictPop {α : Type} (m : List (String × α)) (k : String) : List (String × α) :=
  match m with
  | [] => []
  | (k', v') :: rest => if k' = k then dictPop rest k else (k', v') :: dictPop rest k

/-- Freeform tags: a Python dict from key to value. -/
abbrev TagMap := List (String × String)

/-- Defined tags: a Python dict from namespace name to an inner key-value dict. -/
abbrev DefinedTags := List (String × TagMap)

/-- Boolean prefix test on character lists (helper for Python substring `in`). -/
def isPrefixB : List Char → List Char → Bool
  | [], _ => true
  | _ :: _, [] => false
  | a :: as, b :: bs => a == b && isPrefixB as bs

/-- Helper for Python `sub in s`: does `needle` occur contiguously in the list? -/
def containsAux (needle : List Char) : List Char → Bool
  | [] => isPrefixB needle []
  | c :: t => isPrefixB needle (c :: t) || containsAux needle t

/-- Python substring test `sub in hay` on strings. -/
def containsText (hay sub : String) : Bool :=
  containsAux sub.toList hay.toList

/-- Python `str.lower()`. -/
def lowerStr (s : String) : String :=
  String.mk (s.toList.map Char.toLower)

/-- Embeds `check_service_error` (tag script lines 163-171, identical in
`list_all_capres.py` lines 49-57): classify an error code as a warning. -/
def check_service_error (code : String) : Bool :=
  containsText (lowerStr code) "max retries exceeded" ||
  containsText (lowerStr code) "auth" ||
  containsText (lowerStr code) "notfound" ||
  code == "Forbidden" ||
  code == "TooManyRequests" ||
  code == "IncorrectState" ||
  code == "LimitExceeded"

/-- The parsed command line and the tag-assignment globals of the tag script:
`cmd.deftag` / `cmd.freetag` truthiness, `cmd.deltag`, the three
`assign_tag_*` globals, the `cmd.compartment` and `cmd.region` filters
(empty string means unset) and `cmd.print_report`. -/
structure Config where
  deftag : Bool
  freetag : Bool
  deltag : Bool
  assign_tag_namespace : String
  assign_tag_key : String
  assign_tag_value : String
  compartment : String
  region : String
  print_report : Bool
deriving DecidableEq

/-- The nested membership test of `handle_tags` lines 591-595: the target
namespace is present, holds the target key, and that key holds exactly the
target value. -/
def defined_tags_exist (cfg : Config) (defined_tags : DefinedTags) : Bool :=
  match dictGet defined_tags cfg.assign_tag_namespace with
  | none => false
  | some inner =>
    match dictGet inner cfg.assign_tag_key with
    | none => false
    | some v => v == cfg.assign_tag_value

/-- The membership test of `handle_tags` lines 613-616 on the freeform dict. -/
def freeform_tags_exist (cfg : Config) (freeform_tags : TagMap) : Bool :=
  match dictGet freeform_tags cfg.assign_tag_key with
  | none => false
  | some v => v == cfg.assign_tag_value

/-- Embeds `handle_tags` (tag script lines 583-634).  Returns the new defined
tags, the new freeform tags and `tags_process` (`""`, `"Added"` or
`"Deleted"`).  The defined branch runs when `cmd.deftag` is truthy, the
freeform branch when `cmd.freetag` is truthy; each branch may overwrite
`tags_process`. -/
def handle_tags (cfg : Config) (defined_tags : DefinedTags) (freeform_tags : TagMap) :
    DefinedTags × TagMap × String :=
  let step1 : DefinedTags × String :=
    if cfg.deftag then
      if cfg.deltag then
        if defined_tags_exist cfg defined_tags then
          (dictPop defined_tags cfg.assign_tag_namespace, "Deleted")
        else (defined_tags, "")
      else
        if !(defined_tags_exist cfg defined_tags) then
          (dictSet defined_tags cfg.assign_tag_namespace
            [(cfg.assign_tag_key, cfg.assign_tag_value)], "Added")
        else (defined_tags, "")
    else (defined_tags, "")
  let step2 : TagMap × String :=
    if cfg.freetag then
      if cfg.deltag then
        if freeform_tags_exist cfg freeform_tags then
          (dictPop freeform_tags cfg.assign_tag_key, "Deleted")
        else (freeform_tags, step1.2)
      else
        if !(freeform_tags_exist cfg freeform_tags) then
          (dictSet freeform_tags cfg.assign_tag_key cfg.assign_tag_value, "Added")
        else (freeform_tags, step1.2)
    else (freeform_tags, step1.2)
  (step1.1, step2.1, step2.2)

/-- A compartment (or the tenancy synthesized as a pseudo-compartment): the
fields `identity_read_compartments` and the walkers consult. -/
structure Compartment where
  id : String
  name : String
  lifecycle_state : String
deriving DecidableEq

/-- A listed resource: the fields the three walkers consult, common to
instances, block volumes and boot volumes. -/
structure Resource where
  id : String
  display_name : String
  lifecycle_state : String
  defined_tags : DefinedTags
  freeform_tags : TagMap
deriving DecidableEq

/-- One entry appended to the module-global `data` list (tag script
lines 389-399 and the analogous blocks of the other two handlers). -/
structure ReportRecord where
  region_name : String
  compartment_name : String
  rtype : String
  name : String
  defined_tags : DefinedTags
  freeform_tags : TagMap
  tags_process : String
deriving DecidableEq

/-- An observable `update_instance` / `update_volume` / `update_boot_volume`
call issued by a walker. -/
structure UpdateCall where
  resource_id : String
  defined_tags : DefinedTags
  freeform_tags : TagMap
deriving DecidableEq

/-- The mutable run state threaded through the walkers: the module globals
`data` and `warnings`, plus the issued update calls and printed lines as
observable effects. -/
structure WalkState where
  data : List ReportRecord
  warnings : Nat
  updates : List UpdateCall
  log : List String
deriving DecidableEq

/-- The per-kind local counters `cnt`, `cnt_added`, `cnt_deleted` of each
walker. -/
structure Counters where
  cnt : Nat
  cnt_added : Nat
  cnt_deleted : Nat
deriving DecidableEq

/-- Embeds the shared body of the `for arr in array` loop of the three
walkers (e.g. tag script lines 369-405): skip terminal lifecycle states,
reconcile tags, issue an update call when `tags_process` is truthy, append a
report record, and bump the counters. -/
def process_resource (cfg : Config) (region_name compartment_name rtype : String)
    (acc : WalkState × Counters) (arr : Resource) : WalkState × Counters :=
  if arr.lifecycle_state == "TERMINATING" || arr.lifecycle_state == "TERMINATED" then
    acc
  else
    let r := handle_tags cfg arr.defined_tags arr.freeform_tags
    let st1 := if r.2.2 == "" then acc.1
      else { acc.1 with updates := acc.1.updates ++ [⟨arr.id, r.1, r.2.1⟩] }
    let st2 := { st1 with data := st1.data ++
      [⟨region_name, compartment_name, rtype, arr.display_name, r.1, r.2.1, r.2.2⟩] }
    let c := acc.2
    (st2,
     { cnt := c.cnt + 1,
       cnt_added := if r.2.2 == "Added" then c.cnt_added + 1 else c.cnt_added,
       cnt_deleted := if r.2.2 == "Deleted" then c.cnt_deleted + 1 else c.cnt_deleted })

/-- The per-kind summary line each walker prints after its loop (e.g. tag
script lines 407-414), parametrized by the kind's two literal label texts. -/
def kind_summary (zeroLine labelText : String) (del : Bool) (c : Counters) : String :=
  if c.cnt = 0 then zeroLine
  else if del then labelText ++ Nat.repr c.cnt ++ ", Tag Deleted = " ++ Nat.repr c.cnt_deleted
  else labelText ++ Nat.repr c.cnt ++ ", Tag Added = " ++ Nat.repr c.cnt_added

/-- Embeds `handle_instances` (tag script lines 341-417).  The first result
component is the updated run state; the second is the function's Python
return value, which is `None` on every path (both the early `return` on a
recoverable service error and falling off the end), hence always `none`. -/
def handle_instances (cfg : Config) (listing : Except String (List Resource))
    (compartment : Compartment) (region_name : String) (st : WalkState) :
    Except String (WalkState × Option Counters) :=
  match listing with
  | Except.error code =>
    if check_service_error code then
      Except.ok ({ st with
        warnings := st.warnings + 1,
        log := st.log ++ ["        Instances...Warnings "] }, none)
    else Except.error ("Error in handle_instances: " ++ code)
  | Except.ok array =>
    let r := array.foldl (process_resource cfg region_name compartment.name "instance")
      (st, Counters.mk 0 0 0)
    Except.ok ({ r.1 with log := r.1.log ++
      [kind_summary "        Instances (-)" "        Instances     - " cfg.deltag r.2] }, none)

/-- Embeds `handle_block_volumes` (tag script lines 423-496); same shape as
`handle_instances` with the volume labels. -/
def handle_block_volumes (cfg : Config) (listing : Except String (List Resource))
    (compartment : Compartment) (region_name : String) (st : WalkState) :
    Except String (WalkState × Option Counters) :=
  match listing with
  | Except.error code =>
    if check_service_error code then
      Except.ok ({ st with
        warnings := st.warnings + 1,
        log := st.log ++ ["        Block Volumes...Warnings "] }, none)
    else Except.error ("Error in handle_block_volumes: " ++ code)
  | Except.ok array =>
    let r := array.foldl (process_resource cfg region_name compartment.name "volume")
      (st, Counters.mk 0 0 0)
    Except.ok ({ r.1 with log := r.1.log ++
      [kind_summary "        Block Volumes (-)" "        Block Volumes - " cfg.deltag r.2] }, none)

/-- Embeds the availability-domain loop of `handle_boot_volumes` (tag script
lines 513-565): one listing result per availability domain, processed in
order against a shared state and counter accumulator.  The boolean records
whether the loop exited through the early `return` on a recoverable service
error (in which case the remaining domains are not touched). -/
def handle_boot_volumes_ads (cfg : Config) (compartment_name region_name : String) :
    List (Except String (List Resource)) → WalkState × Counters →
    Except String ((WalkState × Counters) × Bool)
  | [], acc => Except.ok (acc, false)
  | listing :: rest, acc =>
    match listing with
    | Except.error code =>
      if check_service_error code then
        Except.ok (({ acc.1 with
          warnings := acc.1.warnings + 1,
          log := acc.1.log ++ ["        Boot Volumes...Warnings "] }, acc.2), true)
      else Except.error ("Error in handle_boot_volumes: " ++ code)
    | Except.ok array =>
      handle_boot_volumes_ads cfg compartment_name region_name rest
        (array.foldl (process_resource cfg region_name compartment_name "boot volume") acc)

/-- Embeds `handle_boot_volumes` (tag script lines 502-577): run the
availability-domain loop; the summary line is printed only when the loop was
not exited early.  As with the other walkers the Python return value is
`None` on every path. -/
def handle_boot_volumes (cfg : Config) (ads : List (Except String (List Resource)))
    (compartment : Compartment) (region_name : String) (st : WalkState) :
    Except String (WalkState × Option Counters) :=
  match handle_boot_volumes_ads cfg compartment.name region_name ads (st, Counters.mk 0 0 0) with
  | Except.error e => Except.error e
  | Except.ok (acc, early) =>
    if early then Except.ok (acc.1, none)
    else Except.ok ({ acc.1 with log := acc.1.log ++
      [kind_summary "        Boot Volumes (-)" "        Boot Volumes  - " cfg.deltag acc.2] }, none)

/-- The external listing calls consumed by one run: instance and volume
listings per (region, compartment id), and for boot volumes one listing per
availability domain.  The `list_availability_domains` call itself sits
outside the walker's inner `try` in the source (a failure there would be
fatal), so it is modelled as always succeeding: the oracle directly supplies
the per-domain listing results. -/
structure Oracle where
  instances : String → String → Except String (List Resource)
  volumes : String → String → Except String (List Resource)
  boot_volumes : String → String → List (Except String (List Resource))

/-- Embeds one iteration of the compartment loop of `main` (tag script
lines 704-709): print the compartment line, then run the three walkers in
order, propagating any fatal error. -/
def process_compartment (cfg : Config) (oracle : Oracle) (region_name : String)
    (compartment : Compartment) (st : WalkState) : Except String WalkState :=
  let st0 := { st with log := st.log ++ ["    Compartment " ++ compartment.name] }
  match handle_instances cfg (oracle.instances region_name compartment.id)
      compartment region_name st0 with
  | Except.error e => Except.error e
  | Except.ok (st1, _) =>
    match handle_block_volumes cfg (oracle.volumes region_name compartment.id)
        compartment region_name st1 with
    | Except.error e => Except.error e
    | Except.ok (st2, _) =>
      match handle_boot_volumes cfg (oracle.boot_volumes region_name compartment.id)
          compartment region_name st2 with
      | Except.error e => Except.error e
      | Except.ok (st3, _) => Except.ok st3

/-- The compartment loop of `main` over the working set. -/
def process_compartments (cfg : Config) (oracle : Oracle) (region_name : String) :
    List Compartment → WalkState → Except String WalkState
  | [], st => Except.ok st
  | c :: cs, st =>
    match process_compartment cfg oracle region_name c st with
    | Except.error e => Except.error e
    | Except.ok st' => process_compartments cfg oracle region_name cs st'

/-- The region loop of `main` (tag script lines 677-709): skip a region when
a region filter is set and is not a substring of the region name (Python
`cmd.region not in region_name`), otherwise run the compartment loop. -/
def process_regions (cfg : Config) (oracle : Oracle) (compartments : List Compartment) :
    List String → WalkState → Except String WalkState
  | [], st => Except.ok st
  | region_name :: rest, st =>
    if cfg.region ≠ "" ∧ containsText region_name cfg.region = false then
      process_regions cfg oracle compartments rest st
    else
      match process_compartments cfg oracle region_name compartments st with
      | Except.error e => Except.error e
      | Except.ok st' => process_regions cfg oracle compartments rest st'

/-- The end-of-run observables of `main`: what the `-print` block prints
(`json.dumps(data, ...)`, modelled as the printed list itself), whether the
warnings-count header printed, and the final value of the module globals. -/
structure MainResult where
  printed_report : Option (List ReportRecord)
  warnings_header : Bool
  final_data : List ReportRecord
  final_warnings : Nat
deriving DecidableEq

/-- Embeds the body of `main` from the region loop on (tag script
lines 674-722).  In the source, `main` assigns `data = []` and `warnings = 0`
(lines 675-676) without a `global` declaration, so those assignments bind
fresh locals that shadow the module globals the handlers mutate; lines
717-722 then read those locals.  The embedding keeps both: `g` is the module
globals after the loop, `local_data` / `local_warnings` are main's locals. -/
def main_run (cfg : Config) (oracle : Oracle) (regions : List String)
    (compartments : List Compartment) : Except String MainResult :=
  let g0 : WalkState := { data := [], warnings := 0, updates := [], log := [] }
  let local_data : List ReportRecord := []
  let local_warnings : Nat := 0
  match process_regions cfg oracle compartments regions g0 with
  | Except.error e => Except.error e
  | Except.ok g =>
    Except.ok { printed_report := if cfg.print_report then some local_data else none,
                warnings_header := local_warnings > 0,
                final_data := g.data,
                final_warnings := g.warnings }

/-- Embeds `identity_read_compartments` of the tag script (lines 304-335):
append the tenancy root to the listed subtree, skip non-root non-ACTIVE
compartments, and, when `cmd.compartment` is set, skip compartments whose id
and name both differ from the filter. -/
def identity_read_compartments (cmdCompartment : String) (tenancy : Compartment)
    (listed : List Compartment) : List Compartment :=
  (listed ++ [tenancy]).filter (fun compartment =>
    (compartment.id == tenancy.id || compartment.lifecycle_state == "ACTIVE") &&
    (cmdCompartment == "" || compartment.id == cmdCompartment ||
      compartment.name == cmdCompartment))

/-- The compartments actually processed by the `list_all_capres.py` loop:
its `identity_read_compartments` (lines 133-150) appends the tenancy root
without filtering, and the loop (lines 224-226) skips non-root non-ACTIVE
compartments. -/
def capres_processed_compartments (tenancy : Compartment)
    (listed : List Compartment) : List Compartment :=
  (listed ++ [tenancy]).filter (fun compartment =>
    compartment.id == tenancy.id || compartment.lifecycle_state == "ACTIVE")

/-- A resource whose lifecycle state is not one of the two terminal states
skipped by every walker loop. -/
def nonTerminal (arr : Resource) : Bool :=
  !(arr.lifecycle_state == "TERMINATING" || arr.lifecycle_state == "TERMINATED")

/-- The `tags_process` outcome the reconciler yields for a resource. -/
def outcomeOf (cfg : Config) (arr : Resource) : String :=
  (handle_tags cfg arr.defined_tags arr.freeform_tags).2.2

/-- The report record a walker appends for one processed resource. -/
def mk_record (cfg : Config) (region_name compartment_name rtype : String)
    (arr : Resource) : ReportRecord :=
  let r := handle_tags cfg arr.defined_tags arr.freeform_tags
  ⟨region_name, compartment_name, rtype, arr.display_name, r.1, r.2.1, r.2.2⟩

/-- The update call a walker issues for one changed resource. -/
def mk_update (cfg : Config) (arr : Resource) : UpdateCall :=
  let r := handle_tags cfg arr.defined_tags arr.freeform_tags
  ⟨arr.id, r.1, r.2.1⟩

/-- The report records a walker loop produces for a listing: one per
non-terminal resource, in listing order. -/
def recordsOf (cfg : Config) (region_name compartment_name rtype : String)
    (array : List Resource) : List ReportRecord :=
  (array.filter nonTerminal).map (mk_record cfg region_name compartment_name rtype)

/-- The update calls a walker loop issues for a listing: one per non-terminal
resource whose reconciliation outcome is not `""`. -/
def updatesOf (cfg : Config) (array : List Resource) : List UpdateCall :=
  ((array.filter nonTerminal).filter (fun a => !(outcomeOf cfg a == ""))).map (mk_update cfg)

/-- The final per-kind counters for a listing: non-terminal resources
processed, and how many reconciled to `"Added"` / `"Deleted"`. -/
def countersOf (cfg : Config) (array : List Resource) : Counters :=
  { cnt := (array.filter nonTerminal).length,
    cnt_added := ((array.filter nonTerminal).filter (fun a => outcomeOf cfg a == "Added")).length,
    cnt_deleted := ((array.filter nonTerminal).filter (fun a => outcomeOf cfg a == "Deleted")).length }

/-- A listing result that is either a success or a recoverable service error
(the class `check_service_error` accepts). -/
def listingRecoverable (l : Except String (List Resource)) : Prop :=
  ∀ e, l = Except.error e → check_service_error e = true

/-- Every listing failure the oracle can produce is a recoverable service
error. -/
def oracleRecoverable (oracle : Oracle) : Prop :=
  (∀ r cid, listingRecoverable (oracle.instances r cid)) ∧
  (∀ r cid, listingRecoverable (oracle.volumes r cid)) ∧
  (∀ r cid, ∀ l ∈ oracle.boot_volumes r cid, listingRecoverable l)

/-- Example configuration: freeform add mode, `-freetag env=prod -print`. -/
def cfgFree : Config :=
  { deftag := false, freetag := true, deltag := false,
    assign_tag_namespace := "", assign_tag_key := "env", assign_tag_value := "prod",
    compartment := "", region := "", print_report := true }

/-- Example configuration: defined-tag add mode, `-deftag ops.owner=adi`. -/
def cfgDef : Config :=
  { deftag := true, freetag := false, deltag := false,
    assign_tag_namespace := "ops", assign_tag_key := "owner", assign_tag_value := "adi",
    compartment := "", region := "", print_report := false }

/-- Example configuration: defined-tag delete mode. -/
def cfgDefDel : Config := { cfgDef with deltag := true }

/-- Example tenancy root pseudo-compartment. -/
def comp0 : Compartment := { id := "t1", name := "root", lifecycle_state := "" }

/-- Example running instance with no tags. -/
def res1 : Resource :=
  { id := "ocid1", display_name := "vm1", lifecycle_state := "RUNNING",
    defined_tags := [], freeform_tags := [] }

/-- Example terminated instance. -/
def resTerm : Resource := { res1 with id := "ocid2", lifecycle_state := "TERMINATED" }

/-- Initial run state: the module globals at program start. -/
def st0 : WalkState := { data := [], warnings := 0, updates := [], log := [] }

/-- Example oracle: one running instance, a recoverable error on the volume
listing, and no availability domains. -/
def oracle1 : Oracle :=
  { instances := fun _ _ => Except.ok [res1],
    volumes := fun _ _ => Except.error "TooManyRequests",
    boot_volumes := fun _ _ => [] }

/-- Example oracle whose listings all succeed with empty collections. -/
def oracleOk : Oracle :=
  { instances := fun _ _ => Except.ok [],
    volumes := fun _ _ => Except.ok [],
    boot_volumes := fun _ _ => [] }

/-- Example active compartment named net-compartment. -/
def compNet : Compartment :=
  { id := "c1", name := "net-compartment", lifecycle_state := "ACTIVE" }

/-- Example active compartment named db-compartment. -/
def compDb : Compartment :=
  { id := "c2", name := "db-compartment", lifecycle_state := "ACTIVE" }


theorem dictGet_dictSet_self {α : Type} (m : List (String × α)) (k : String) (v : α) :
    dictGet (dictSet m k v) k = some v := by
  induction m with
  | nil => simp [dictSet, dictGet]
  | cons p rest ih =>
    obtain ⟨k', v'⟩ := p
    by_cases h : k' = k
    · simp [dictSet, dictGet, h]
    · simp [dictSet, dictGet, h, ih]

theorem dictGet_dictPop_self {α : Type} (m : List (String × α)) (k : String) :
    dictGet (dictPop m k) k = none := by
  induction m with
  | nil => simp [dictPop, dictGet]
  | cons p rest ih =>
    obtain ⟨k', v'⟩ := p
    by_cases h : k' = k
    · simp [dictPop, h, ih]
    · simp [dictPop, dictGet, h, ih]

theorem defined_tags_exist_iff (cfg : Config) (dt : DefinedTags) :
    defined_tags_exist cfg dt = true ↔
      Option.bind (dictGet dt cfg.assign_tag_namespace)
        (fun inner => dictGet inner cfg.assign_tag_key) = some cfg.assign_tag_value := by
  unfold defined_tags_exist
  rcases h1 : dictGet dt cfg.assign_tag_namespace with _ | inner <;> simp [h1]
  rcases h2 : dictGet inner cfg.assign_tag_key with _ | v <;> simp [h2, beq_iff_eq]

theorem freeform_tags_exist_iff (cfg : Config) (ft : TagMap) :
    freeform_tags_exist cfg ft = true ↔
      dictGet ft cfg.assign_tag_key = some cfg.assign_tag_value := by
  unfold freeform_tags_exist
  rcases h : dictGet ft cfg.assign_tag_key with _ | v <;> simp [h, beq_iff_eq]

theorem defined_tags_exist_dictSet (cfg : Config) (dt : DefinedTags) :
    defined_tags_exist cfg (dictSet dt cfg.assign_tag_namespace
      [(cfg.assign_tag_key, cfg.assign_tag_value)]) = true := by
  unfold defined_tags_exist
  rw [dictGet_dictSet_self]
  simp [dictGet]

theorem freeform_tags_exist_dictSet (cfg : Config) (ft : TagMap) :
    freeform_tags_exist cfg (dictSet ft cfg.assign_tag_key cfg.assign_tag_value) = true := by
  unfold freeform_tags_exist
  rw [dictGet_dictSet_self]
  simp

/-- C2: in defined-tag add mode, whenever the target namespace.key does not
already hold exactly the target value (key absent, namespace absent, or a
different value), `handle_tags` reports `"Added"` and binds the target
namespace to exactly the one-entry map `[(key, value)]`, discarding any other
keys previously held under that namespace. -/
theorem handle_tags_add_replaces (cfg : Config) (dt : DefinedTags) (ft : TagMap)
    (hd : cfg.deftag = true) (hf : cfg.freetag = false) (hm : cfg.deltag = false)
    (hex : Option.bind (dictGet dt cfg.assign_tag_namespace)
        (fun inner => dictGet inner cfg.assign_tag_key) ≠ some cfg.assign_tag_value) :
    (handle_tags cfg dt ft).2.2 = "Added" ∧
    dictGet (handle_tags cfg dt ft).1 cfg.assign_tag_namespace =
      some [(cfg.assign_tag_key, cfg.assign_tag_value)] := by
  have hexb : defined_tags_exist cfg dt = false := by
    simpa using mt (defined_tags_exist_iff cfg dt).mp hex
  simp [handle_tags, hd, hf, hm, hexb, dictGet_dictSet_self]

/-- Instantiation of `handle_tags_add_replaces`: adding `ops.owner=adi` to a
resource already holding another key under `ops` yields `"Added"` and the
namespace collapses to the single new entry. -/
theorem handle_tags_add_replaces_witness :
    (handle_tags cfgDef [("ops", [("team", "x")])] []).2.2 = "Added" ∧
    dictGet (handle_tags cfgDef [("ops", [("team", "x")])] []).1 "ops" =
      some [("owner", "adi")] := by
  have h := handle_tags_add_replaces cfgDef [("ops", [("team", "x")])] []
    rfl rfl rfl (by decide)
  simpa [cfgDef] using h

/-- C5: in defined-tag delete mode, `handle_tags` removes the entire target
namespace entry and reports `"Deleted"` exactly when the target
namespace.key holds exactly the target value; in every other case it reports
`""` (unchanged) and returns the tag state untouched. -/
theorem handle_tags_delete_defined (cfg : Config) (dt : DefinedTags) (ft : TagMap)
    (hd : cfg.deftag = true) (hf : cfg.freetag = false) (hm : cfg.deltag = true) :
    (Option.bind (dictGet dt cfg.assign_tag_namespace)
        (fun inner => dictGet inner cfg.assign_tag_key) = some cfg.assign_tag_value →
      handle_tags cfg dt ft = (dictPop dt cfg.assign_tag_namespace, ft, "Deleted") ∧
      dictGet (handle_tags cfg dt ft).1 cfg.assign_tag_namespace = none) ∧
    (Option.bind (dictGet dt cfg.assign_tag_namespace)
        (fun inner => dictGet inner cfg.assign_tag_key) ≠ some cfg.assign_tag_value →
      handle_tags cfg dt ft = (dt, ft, "")) := by
  constructor
  · intro h
    have hexb : defined_tags_exist cfg dt = true := (defined_tags_exist_iff cfg dt).mpr h
    simp [handle_tags, hd, hf, hm, hexb, dictGet_dictPop_self]
  · intro h
    have hexb : defined_tags_exist cfg dt = false := by
      simpa using mt (defined_tags_exist_iff cfg dt).mp h
    simp [handle_tags, hd, hf, hm, hexb]

/-- Instantiation of `handle_tags_delete_defined` at both cases: deleting
`ops.owner=adi` removes the namespace entry when the exact value is present,
and leaves a state with a different value untouched. -/
theorem handle_tags_delete_defined_witness :
    handle_tags cfgDefDel [("ops", [("owner", "adi")])] [] = ([], [], "Deleted") ∧
    handle_tags cfgDefDel [("ops", [("owner", "bob")])] [] =
      ([("ops", [("owner", "bob")])], [], "") := by
  constructor
  · have h := (handle_tags_delete_defined cfgDefDel [("ops", [("owner", "adi")])] []
      rfl rfl rfl).1 (by decide)
    simpa [cfgDefDel, cfgDef, dictPop] using h.1
  · exact (handle_tags_delete_defined cfgDefDel [("ops", [("owner", "bob")])] []
      rfl rfl rfl).2 (by decide)

/-- C6: `handle_tags` in add mode is idempotent.  Under the
exactly-one-assignment invariant enforced by `command_line`: when the target
tag (defined or freeform, as configured) is already present with the exact
value, the call reports `""` and returns the state untouched; and in all
cases a second application to the first application's result returns that
result untouched with outcome `""`, so applying twice equals applying
once. -/
theorem handle_tags_add_idempotent (cfg : Config) (dt : DefinedTags) (ft : TagMap)
    (hv : (cfg.deftag = true ∧ cfg.freetag = false) ∨
          (cfg.deftag = false ∧ cfg.freetag = true))
    (hm : cfg.deltag = false) :
    (cfg.deftag = true →
      Option.bind (dictGet dt cfg.assign_tag_namespace)
        (fun inner => dictGet inner cfg.assign_tag_key) = some cfg.assign_tag_value →
      handle_tags cfg dt ft = (dt, ft, "")) ∧
    (cfg.freetag = true → dictGet ft cfg.assign_tag_key = some cfg.assign_tag_value →
      handle_tags cfg dt ft = (dt, ft, "")) ∧
    handle_tags cfg (handle_tags cfg dt ft).1 (handle_tags cfg dt ft).2.1 =
      ((handle_tags cfg dt ft).1, (handle_tags cfg dt ft).2.1, "") := by
  rcases hv with ⟨h1, h2⟩ | ⟨h1, h2⟩
  · refine ⟨?_, ?_, ?_⟩
    · intro _ h
      have hexb : defined_tags_exist cfg dt = true := (defined_tags_exist_iff cfg dt).mpr h
      simp [handle_tags, h1, h2, hm, hexb]
    · intro hcon; rw [hcon] at h2; exact absurd h2 (by simp)
    · by_cases hexb : defined_tags_exist cfg dt = true
      · simp [handle_tags, h1, h2, hm, hexb]
      · have hexb' : defined_tags_exist cfg dt = false := by simpa using hexb
        simp [handle_tags, h1, h2, hm, hexb', defined_tags_exist_dictSet]
  · refine ⟨?_, ?_, ?_⟩
    · intro hcon; rw [hcon] at h1; exact absurd h1 (by simp)
    · intro _ h
      have hexb : freeform_tags_exist cfg ft = true := (freeform_tags_exist_iff cfg ft).mpr h
      simp [handle_tags, h1, h2, hm, hexb]
    · by_cases hexb : freeform_tags_exist cfg ft = true
      · simp [handle_tags, h1, h2, hm, hexb]
      · have hexb' : freeform_tags_exist cfg ft = false := by simpa using hexb
        simp [handle_tags, h1, h2, hm, hexb', freeform_tags_exist_dictSet]

/-- Instantiation of `handle_tags_add_idempotent`: a state already holding
`ops.owner=adi` is returned untouched, and adding to an empty state twice
equals adding once. -/
theorem handle_tags_add_idempotent_witness :
    handle_tags cfgDef [("ops", [("owner", "adi")])] [] =
      ([("ops", [("owner", "adi")])], [], "") ∧
    handle_tags cfgDef (handle_tags cfgDef [] []).1 (handle_tags cfgDef [] []).2.1 =
      ((handle_tags cfgDef [] []).1, (handle_tags cfgDef [] []).2.1, "") := by
  constructor
  · exact (handle_tags_add_idempotent cfgDef [("ops", [("owner", "adi")])] []
      (Or.inl ⟨rfl, rfl⟩) rfl).1 rfl (by decide)
  · exact (handle_tags_add_idempotent cfgDef [] [] (Or.inl ⟨rfl, rfl⟩) rfl).2.2

/-- C9: `handle_tags` never touches the other tag family: when the defined
branch is inactive the returned defined-tag mapping equals the input, and
when the freeform branch is inactive the returned freeform mapping equals
the input — in particular a freeform assignment leaves the defined tags
unchanged and a defined assignment leaves the freeform tags unchanged, in
both add and delete mode. -/
theorem handle_tags_frame (cfg : Config) (dt : DefinedTags) (ft : TagMap) :
    (cfg.deftag = false → (handle_tags cfg dt ft).1 = dt) ∧
    (cfg.freetag = false → (handle_tags cfg dt ft).2.1 = ft) := by
  constructor
  · intro h; simp [handle_tags, h]
  · intro h; simp [handle_tags, h]

/-- Instantiation of `handle_tags_frame`: the freeform config leaves defined
tags alone and the defined config leaves freeform tags alone. -/
theorem handle_tags_frame_witness :
    (handle_tags cfgFree [("ops", [("owner", "adi")])] []).1 =
      [("ops", [("owner", "adi")])] ∧
    (handle_tags cfgDef [] [("env", "prod")]).2.1 = [("env", "prod")] :=
  ⟨(handle_tags_frame cfgFree [("ops", [("owner", "adi")])] []).1 rfl,
   (handle_tags_frame cfgDef [] [("env", "prod")]).2 rfl⟩
theorem nonTerminal_true_iff (a : Resource) :
    nonTerminal a = true ↔
      (a.lifecycle_state == "TERMINATING" || a.lifecycle_state == "TERMINATED") = false := by
  unfold nonTerminal
  cases (a.lifecycle_state == "TERMINATING" || a.lifecycle_state == "TERMINATED") <;> simp

theorem foldl_process_resource (cfg : Config) (rn cn rt : String) (array : List Resource)
    (st : WalkState) (c : Counters) :
    array.foldl (process_resource cfg rn cn rt) (st, c) =
      ({ st with data := st.data ++ recordsOf cfg rn cn rt array,
                 updates := st.updates ++ updatesOf cfg array },
       { cnt := c.cnt + (countersOf cfg array).cnt,
         cnt_added := c.cnt_added + (countersOf cfg array).cnt_added,
         cnt_deleted := c.cnt_deleted + (countersOf cfg array).cnt_deleted }) := by
  induction array generalizing st c with
  | nil => simp [recordsOf, updatesOf, countersOf]
  | cons a as ih =>
    rw [List.foldl_cons]
    by_cases ht : nonTerminal a = true
    · have hterm := (nonTerminal_true_iff a).mp ht
      by_cases ho : outcomeOf cfg a = ""
      · have hstep : process_resource cfg rn cn rt (st, c) a =
            ({ st with data := st.data ++ [mk_record cfg rn cn rt a] },
             { cnt := c.cnt + 1, cnt_added := c.cnt_added, cnt_deleted := c.cnt_deleted }) := by
          have hoe : (handle_tags cfg a.defined_tags a.freeform_tags).2.2 = "" := by
            simpa [outcomeOf] using ho
          simp [process_resource, hterm, mk_record, hoe]
        rw [hstep, ih]
        simp [recordsOf, updatesOf, countersOf, List.filter_cons, ht, ho,
          List.append_assoc]
        omega
      · have hne : ¬ ((handle_tags cfg a.defined_tags a.freeform_tags).2.2 = "") := by
          simpa [outcomeOf] using ho
        have hstep : process_resource cfg rn cn rt (st, c) a =
            ({ st with data := st.data ++ [mk_record cfg rn cn rt a],
                       updates := st.updates ++ [mk_update cfg a] },
             { cnt := c.cnt + 1,
               cnt_added := if outcomeOf cfg a = "Added" then c.cnt_added + 1 else c.cnt_added,
               cnt_deleted := if outcomeOf cfg a = "Deleted" then c.cnt_deleted + 1 else c.cnt_deleted }) := by
          simp [process_resource, hterm, mk_record, mk_update, outcomeOf, hne]
        rw [hstep, ih]
        by_cases ha : outcomeOf cfg a = "Added" <;>
          by_cases hd : outcomeOf cfg a = "Deleted" <;>
          · simp [recordsOf, updatesOf, countersOf, List.filter_cons, ht, ho, ha, hd,
              List.append_assoc]
            omega
    · have ht' : nonTerminal a = false := by simpa using ht
      have hterm : (a.lifecycle_state == "TERMINATING" || a.lifecycle_state == "TERMINATED") = true := by
        rcases h : (a.lifecycle_state == "TERMINATING" || a.lifecycle_state == "TERMINATED")
        · exact absurd ((nonTerminal_true_iff a).mpr h) (by simp [ht'])
        · rfl
      have hstep : process_resource cfg rn cn rt (st, c) a = (st, c) := by
        simp [process_resource, hterm]
      rw [hstep, ih]
      simp [recordsOf, updatesOf, countersOf, List.filter_cons, ht']

theorem handle_instances_ok (cfg : Config) (array : List Resource)
    (compartment : Compartment) (region_name : String) (st : WalkState) :
    handle_instances cfg (Except.ok array) compartment region_name st =
      Except.ok ({ st with
        data := st.data ++ recordsOf cfg region_name compartment.name "instance" array,
        updates := st.updates ++ updatesOf cfg array,
        log := st.log ++ [kind_summary "        Instances (-)" "        Instances     - "
          cfg.deltag (countersOf cfg array)] }, none) := by
  simp only [handle_instances]
  rw [foldl_process_resource]
  simp [countersOf]

theorem handle_block_volumes_ok (cfg : Config) (array : List Resource)
    (compartment : Compartment) (region_name : String) (st : WalkState) :
    handle_block_volumes cfg (Except.ok array) compartment region_name st =
      Except.ok ({ st with
        data := st.data ++ recordsOf cfg region_name compartment.name "volume" array,
        updates := st.updates ++ updatesOf cfg array,
        log := st.log ++ [kind_summary "        Block Volumes (-)" "        Block Volumes - "
          cfg.deltag (countersOf cfg array)] }, none) := by
  simp only [handle_block_volumes]
  rw [foldl_process_resource]
  simp [countersOf]

theorem handle_boot_volumes_ads_ok_map (cfg : Config) (cn rn : String)
    (ads : List (List Resource)) (acc : WalkState × Counters) :
    handle_boot_volumes_ads cfg cn rn (ads.map Except.ok) acc =
      Except.ok (ads.flatten.foldl (process_resource cfg rn cn "boot volume") acc, false) := by
  induction ads generalizing acc with
  | nil => simp [handle_boot_volumes_ads]
  | cons x xs ih => simp [handle_boot_volumes_ads, ih, List.foldl_append]

theorem handle_boot_volumes_ok (cfg : Config) (ads : List (List Resource))
    (compartment : Compartment) (region_name : String) (st : WalkState) :
    handle_boot_volumes cfg (ads.map Except.ok) compartment region_name st =
      Except.ok ({ st with
        data := st.data ++ recordsOf cfg region_name compartment.name "boot volume" ads.flatten,
        updates := st.updates ++ updatesOf cfg ads.flatten,
        log := st.log ++ [kind_summary "        Boot Volumes (-)" "        Boot Volumes  - "
          cfg.deltag (countersOf cfg ads.flatten)] }, none) := by
  unfold handle_boot_volumes
  rw [handle_boot_volumes_ads_ok_map, foldl_process_resource]
  simp [countersOf]

theorem handle_instances_err (cfg : Config) (code : String) (compartment : Compartment)
    (region_name : String) (st : WalkState) (h : check_service_error code = true) :
    handle_instances cfg (Except.error code) compartment region_name st =
      Except.ok ({ st with
        warnings := st.warnings + 1,
        log := st.log ++ ["        Instances...Warnings "] }, none) := by
  simp [handle_instances, h]

theorem handle_block_volumes_err (cfg : Config) (code : String) (compartment : Compartment)
    (region_name : String) (st : WalkState) (h : check_service_error code = true) :
    handle_block_volumes cfg (Except.error code) compartment region_name st =
      Except.ok ({ st with
        warnings := st.warnings + 1,
        log := st.log ++ ["        Block Volumes...Warnings "] }, none) := by
  simp [handle_block_volumes, h]

theorem handle_boot_volumes_ads_early (cfg : Config) (cn rn : String)
    (ads : List (List Resource)) (code : String)
    (rest : List (Except String (List Resource)))
    (acc : WalkState × Counters) (h : check_service_error code = true) :
    handle_boot_volumes_ads cfg cn rn (ads.map Except.ok ++ Except.error code :: rest) acc =
      Except.ok
        ((({ (ads.flatten.foldl (process_resource cfg rn cn "boot volume") acc).1 with
             warnings := (ads.flatten.foldl (process_resource cfg rn cn "boot volume") acc).1.warnings + 1,
             log := (ads.flatten.foldl (process_resource cfg rn cn "boot volume") acc).1.log ++
               ["        Boot Volumes...Warnings "] },
           (ads.flatten.foldl (process_resource cfg rn cn "boot volume") acc).2), true)) := by
  induction ads generalizing acc with
  | nil => simp [handle_boot_volumes_ads, h]
  | cons x xs ih => simp [handle_boot_volumes_ads, ih, List.foldl_append]

theorem isPrefixB_iff (l₁ l₂ : List Char) :
    isPrefixB l₁ l₂ = true ↔ ∃ t, l₁ ++ t = l₂ := by
  induction l₁ generalizing l₂ with
  | nil => simp [isPrefixB]
  | cons a as ih =>
    cases l₂ with
    | nil => simp [isPrefixB]
    | cons b bs =>
      simp only [isPrefixB, Bool.and_eq_true, beq_iff_eq, ih, List.cons_append,
        List.cons.injEq]
      constructor
      · rintro ⟨rfl, t, rfl⟩; exact ⟨t, rfl, rfl⟩
      · rintro ⟨t, rfl, rfl⟩; exact ⟨rfl, t, rfl⟩

theorem containsAux_iff (needle hay : List Char) :
    containsAux needle hay = true ↔ ∃ s t, s ++ needle ++ t = hay := by
  induction hay with
  | nil =>
    simp only [containsAux, isPrefixB_iff]
    constructor
    · rintro ⟨t, h⟩; exact ⟨[], t, by simpa using h⟩
    · rintro ⟨s, t, h⟩
      rcases List.append_eq_nil.mp h with ⟨h1, h2⟩
      rcases List.append_eq_nil.mp h1 with ⟨h3, h4⟩
      exact ⟨t, by simp [h2, h4]⟩
  | cons c t ih =>
    simp only [containsAux, Bool.or_eq_true, isPrefixB_iff, ih]
    constructor
    · rintro (⟨u, h⟩ | ⟨s, u, h⟩)
      · exact ⟨[], u, by simpa using h⟩
      · exact ⟨c :: s, u, by simp [h]⟩
    · rintro ⟨s, u, h⟩
      cases s with
      | nil => exact Or.inl ⟨u, by simpa using h⟩
      | cons a s' =>
        rw [List.cons_append, List.cons_append] at h
        injection h with h1 h2
        exact Or.inr ⟨s', u, h2⟩

theorem containsText_iff (hay sub : String) :
    containsText hay sub = true ↔ ∃ s t, s ++ sub.toList ++ t = hay.toList := by
  unfold containsText
  exact containsAux_iff sub.toList hay.toList

theorem process_compartments_append (cfg : Config) (oracle : Oracle) (rn : String)
    (cs₁ cs₂ : List Compartment) (st : WalkState) :
    process_compartments cfg oracle rn (cs₁ ++ cs₂) st =
      (process_compartments cfg oracle rn cs₁ st).bind
        (fun st' => process_compartments cfg oracle rn cs₂ st') := by
  induction cs₁ generalizing st with
  | nil => simp [process_compartments, Except.bind]
  | cons c cs ih =>
    simp only [List.cons_append, process_compartments]
    cases process_compartment cfg oracle rn c st <;> simp [ih, Except.bind]

theorem handle_instances_isOk (cfg : Config) (listing : Except String (List Resource))
    (compartment : Compartment) (rn : String) (st : WalkState)
    (h : listingRecoverable listing) :
    ∃ r, handle_instances cfg listing compartment rn st = Except.ok r := by
  cases listing with
  | ok array => exact ⟨_, handle_instances_ok cfg array compartment rn st⟩
  | error code => exact ⟨_, handle_instances_err cfg code compartment rn st (h code rfl)⟩

theorem handle_block_volumes_isOk (cfg : Config) (listing : Except String (List Resource))
    (compartment : Compartment) (rn : String) (st : WalkState)
    (h : listingRecoverable listing) :
    ∃ r, handle_block_volumes cfg listing compartment rn st = Except.ok r := by
  cases listing with
  | ok array => exact ⟨_, handle_block_volumes_ok cfg array compartment rn st⟩
  | error code => exact ⟨_, handle_block_volumes_err cfg code compartment rn st (h code rfl)⟩

theorem handle_boot_volumes_ads_err (cfg : Config) (cn rn code : String)
    (rest : List (Except String (List Resource))) (acc : WalkState × Counters)
    (h : check_service_error code = true) :
    handle_boot_volumes_ads cfg cn rn (Except.error code :: rest) acc =
      Except.ok (({ acc.1 with
        warnings := acc.1.warnings + 1,
        log := acc.1.log ++ ["        Boot Volumes...Warnings "] }, acc.2), true) := by
  simp [handle_boot_volumes_ads, h]

theorem handle_boot_volumes_ads_isOk (cfg : Config) (cn rn : String)
    (ads : List (Except String (List Resource))) (acc : WalkState × Counters) :
    (∀ l ∈ ads, listingRecoverable l) →
    ∃ r, handle_boot_volumes_ads cfg cn rn ads acc = Except.ok r := by
  induction ads generalizing acc with
  | nil => exact fun _ => ⟨_, rfl⟩
  | cons l rest ih =>
    intro h
    cases l with
    | error code =>
      have hc : check_service_error code = true := h _ (List.mem_cons_self _ _) code rfl
      exact ⟨_, handle_boot_volumes_ads_err cfg cn rn code rest acc hc⟩
    | ok array =>
      obtain ⟨r, hr⟩ := ih
        (array.foldl (process_resource cfg rn cn "boot volume") acc)
        (fun l hl => h l (List.mem_cons_of_mem _ hl))
      exact ⟨r, by simp [handle_boot_volumes_ads, hr]⟩

theorem handle_boot_volumes_isOk (cfg : Config)
    (ads : List (Except String (List Resource))) (compartment : Compartment)
    (rn : String) (st : WalkState) (h : ∀ l ∈ ads, listingRecoverable l) :
    ∃ r, handle_boot_volumes cfg ads compartment rn st = Except.ok r := by
  obtain ⟨⟨acc, early⟩, hr⟩ :=
    handle_boot_volumes_ads_isOk cfg compartment.name rn ads (st, Counters.mk 0 0 0) h
  cases early with
  | true => exact ⟨(acc.1, none), by simp [handle_boot_volumes, hr]⟩
  | false =>
    exact ⟨({ acc.1 with log := acc.1.log ++ [kind_summary "        Boot Volumes (-)"
      "        Boot Volumes  - " cfg.deltag acc.2] }, none),
      by simp [handle_boot_volumes, hr]⟩

theorem process_compartment_isOk (cfg : Config) (oracle : Oracle) (rn : String)
    (compartment : Compartment) (st : WalkState) (h : oracleRecoverable oracle) :
    ∃ st', process_compartment cfg oracle rn compartment st = Except.ok st' := by
  obtain ⟨h1, h2, h3⟩ := h
  obtain ⟨⟨s1, o1⟩, hi⟩ := handle_instances_isOk cfg (oracle.instances rn compartment.id)
    compartment rn { st with log := st.log ++ ["    Compartment " ++ compartment.name] }
    (h1 rn compartment.id)
  obtain ⟨⟨s2, o2⟩, hb⟩ := handle_block_volumes_isOk cfg (oracle.volumes rn compartment.id)
    compartment rn s1 (h2 rn compartment.id)
  obtain ⟨⟨s3, o3⟩, hv⟩ := handle_boot_volumes_isOk cfg (oracle.boot_volumes rn compartment.id)
    compartment rn s2 (fun l hl => h3 rn compartment.id l hl)
  exact ⟨s3, by simp [process_compartment, hi, hb, hv]⟩

theorem process_compartments_isOk (cfg : Config) (oracle : Oracle) (rn : String)
    (compartments : List Compartment) (st : WalkState) (h : oracleRecoverable oracle) :
    ∃ st', process_compartments cfg oracle rn compartments st = Except.ok st' := by
  induction compartments generalizing st with
  | nil => exact ⟨st, rfl⟩
  | cons c cs ih =>
    obtain ⟨s1, h1⟩ := process_compartment_isOk cfg oracle rn c st h
    obtain ⟨s2, h2⟩ := ih s1
    exact ⟨s2, by simp [process_compartments, h1, h2]⟩

theorem process_regions_isOk (cfg : Config) (oracle : Oracle)
    (compartments : List Compartment) (regions : List String) (st : WalkState)
    (h : oracleRecoverable oracle) :
    ∃ st', process_regions cfg oracle compartments regions st = Except.ok st' := by
  induction regions generalizing st with
  | nil => exact ⟨st, rfl⟩
  | cons r rest ih =>
    by_cases hskip : cfg.region ≠ "" ∧ containsText r cfg.region = false
    · obtain ⟨st', h'⟩ := ih st
      exact ⟨st', by simp [process_regions, hskip, h']⟩
    · obtain ⟨s1, h1⟩ := process_compartments_isOk cfg oracle r compartments st h
      obtain ⟨st', h'⟩ := ih s1
      exact ⟨st', by simp [process_regions, hskip, h1, h']⟩

theorem process_resource_terminal (cfg : Config) (rn cn rt : String)
    (acc : WalkState × Counters) (arr : Resource)
    (h : arr.lifecycle_state = "TERMINATING" ∨ arr.lifecycle_state = "TERMINATED") :
    process_resource cfg rn cn rt acc arr = acc := by
  have hterm : (arr.lifecycle_state == "TERMINATING" ||
      arr.lifecycle_state == "TERMINATED") = true := by
    rcases h with h | h <;> simp [h]
  simp [process_resource, hterm]

theorem nonTerminal_of_terminal (arr : Resource)
    (h : arr.lifecycle_state = "TERMINATING" ∨ arr.lifecycle_state = "TERMINATED") :
    nonTerminal arr = false := by
  rcases h with h | h <;> simp [nonTerminal, h]

theorem filter_nonTerminal_skip (a₁ a₂ : List Resource) (arr : Resource)
    (h : nonTerminal arr = false) :
    (a₁ ++ arr :: a₂).filter nonTerminal = (a₁ ++ a₂).filter nonTerminal := by
  simp [List.filter_append, List.filter_cons, h]

theorem foldl_skip_terminal (cfg : Config) (rn cn rt : String) (a₁ a₂ : List Resource)
    (arr : Resource) (acc : WalkState × Counters)
    (h : arr.lifecycle_state = "TERMINATING" ∨ arr.lifecycle_state = "TERMINATED") :
    (a₁ ++ arr :: a₂).foldl (process_resource cfg rn cn rt) acc =
      (a₁ ++ a₂).foldl (process_resource cfg rn cn rt) acc := by
  rw [List.foldl_append, List.foldl_append, List.foldl_cons,
    process_resource_terminal cfg rn cn rt _ arr h]

/-- C3: `check_service_error` accepts exactly the codes whose lowercased
text contains one of the three substrings or that equal one of the four
listed codes; on such an error a listing call's walker increments the
warning counter by exactly one, skips that kind for that compartment
(appending no record and issuing no update), and the compartment loop
composes so processing continues with the remaining compartments; when every
listing failure is of this class the whole region loop completes without
aborting. -/
theorem check_service_error_spec :
    (∀ code : String,
      check_service_error code = true ↔
        ((∃ s t, s ++ "max retries exceeded".toList ++ t = (lowerStr code).toList) ∨
         (∃ s t, s ++ "auth".toList ++ t = (lowerStr code).toList) ∨
         (∃ s t, s ++ "notfound".toList ++ t = (lowerStr code).toList) ∨
         code = "Forbidden" ∨ code = "TooManyRequests" ∨
         code = "IncorrectState" ∨ code = "LimitExceeded")) ∧
    (∀ (cfg : Config) (code : String) (compartment : Compartment) (rn : String)
        (st : WalkState), check_service_error code = true →
      handle_instances cfg (Except.error code) compartment rn st =
        Except.ok ({ st with
          warnings := st.warnings + 1,
          log := st.log ++ ["        Instances...Warnings "] }, none)) ∧
    (∀ (cfg : Config) (oracle : Oracle) (rn : String) (cs₁ cs₂ : List Compartment)
        (st : WalkState),
      process_compartments cfg oracle rn (cs₁ ++ cs₂) st =
        (process_compartments cfg oracle rn cs₁ st).bind
          (fun st' => process_compartments cfg oracle rn cs₂ st')) ∧
    (∀ (cfg : Config) (oracle : Oracle) (compartments : List Compartment)
        (regions : List String) (st : WalkState), oracleRecoverable oracle →
      ∃ st', process_regions cfg oracle compartments regions st = Except.ok st') := by
  refine ⟨?_, ?_, ?_, ?_⟩
  · intro code
    unfold check_service_error
    simp only [Bool.or_eq_true, containsText_iff, beq_iff_eq, or_assoc]
  · exact fun cfg code c rn st h => handle_instances_err cfg code c rn st h
  · exact fun cfg oracle rn cs₁ cs₂ st => process_compartments_append cfg oracle rn cs₁ cs₂ st
  · exact fun cfg oracle cs regions st h => process_regions_isOk cfg oracle cs regions st h

/-- Instantiation of `check_service_error_spec`: `TooManyRequests` is
recoverable, skipping the instance kind bumps the warning counter once, and
a run against an all-successful oracle completes. -/
theorem check_service_error_spec_witness :
    check_service_error "TooManyRequests" = true ∧
    handle_instances cfgDef (Except.error "TooManyRequests") comp0 "r1" st0 =
      Except.ok ({ st0 with
        warnings := st0.warnings + 1,
        log := st0.log ++ ["        Instances...Warnings "] }, none) ∧
    (∃ st', process_regions cfgDef oracleOk [comp0] ["r1"] st0 = Except.ok st') := by
  refine ⟨?_, ?_, ?_⟩
  · exact (check_service_error_spec.1 "TooManyRequests").mpr
      (Or.inr (Or.inr (Or.inr (Or.inr (Or.inl rfl)))))
  · exact check_service_error_spec.2.1 cfgDef "TooManyRequests" comp0 "r1" st0 (by decide)
  · exact check_service_error_spec.2.2.2 cfgDef oracleOk [comp0] ["r1"] st0
      ⟨fun r cid e he => absurd he (by simp [oracleOk]),
       fun r cid e he => absurd he (by simp [oracleOk]),
       fun r cid l hl => absurd hl (by simp [oracleOk])⟩

/-- C4 counterexample: at a concrete input where `handle_instances`
processes one resource — its own printed summary line reads cnt = 1,
added = 1 — the function's Python return value (the second component) is
`none`: the per-kind counters are not returned to the caller, they are only
printed. -/
theorem handle_instances_counterexample :
    handle_instances cfgFree (Except.ok [res1]) comp0 "r1" st0 =
      Except.ok
        ({ data := [⟨"r1", "root", "instance", "vm1", [], [("env", "prod")], "Added"⟩],
           warnings := 0,
           updates := [⟨"ocid1", [], [("env", "prod")]⟩],
           log := ["        Instances     - 1, Tag Added = 1"] }, none) := by
  rfl

/-- C4 amended: each per-kind walker computes per-kind counters (total
processed, added count, deleted count) and reports them only through its
printed summary line; its Python return value is `None` on every path, so
the counters are never returned to the caller — in particular an abort on a
recoverable listing error also returns `None` and prints no summary line for
that kind, so no counts are reported.  For instances and block volumes such
an abort precedes the loop, leaving the state with exactly one extra warning
and the warning line; for boot volumes the failing listing can be any
availability domain, and records and update calls from the domains processed
before it are kept. -/
theorem walkers_report_counters (cfg : Config) (compartment : Compartment)
    (rn : String) (st : WalkState) :
    (∀ array, handle_instances cfg (Except.ok array) compartment rn st =
      Except.ok ({ st with
        data := st.data ++ recordsOf cfg rn compartment.name "instance" array,
        updates := st.updates ++ updatesOf cfg array,
        log := st.log ++ [kind_summary "        Instances (-)" "        Instances     - "
          cfg.deltag (countersOf cfg array)] }, none)) ∧
    (∀ array, handle_block_volumes cfg (Except.ok array) compartment rn st =
      Except.ok ({ st with
        data := st.data ++ recordsOf cfg rn compartment.name "volume" array,
        updates := st.updates ++ updatesOf cfg array,
        log := st.log ++ [kind_summary "        Block Volumes (-)" "        Block Volumes - "
          cfg.deltag (countersOf cfg array)] }, none)) ∧
    (∀ ads : List (List Resource),
      handle_boot_volumes cfg (ads.map Except.ok) compartment rn st =
      Except.ok ({ st with
        data := st.data ++ recordsOf cfg rn compartment.name "boot volume" ads.flatten,
        updates := st.updates ++ updatesOf cfg ads.flatten,
        log := st.log ++ [kind_summary "        Boot Volumes (-)" "        Boot Volumes  - "
          cfg.deltag (countersOf cfg ads.flatten)] }, none)) ∧
    (∀ code, check_service_error code = true →
      handle_instances cfg (Except.error code) compartment rn st =
        Except.ok ({ st with
          warnings := st.warnings + 1,
          log := st.log ++ ["        Instances...Warnings "] }, none)) ∧
    (∀ code, check_service_error code = true →
      handle_block_volumes cfg (Except.error code) compartment rn st =
        Except.ok ({ st with
          warnings := st.warnings + 1,
          log := st.log ++ ["        Block Volumes...Warnings "] }, none)) ∧
    (∀ (code : String) (ads : List (List Resource))
        (rest : List (Except String (List Resource))), check_service_error code = true →
      handle_boot_volumes cfg (ads.map Except.ok ++ Except.error code :: rest)
          compartment rn st =
        Except.ok ({ st with
          data := st.data ++ recordsOf cfg rn compartment.name "boot volume" ads.flatten,
          updates := st.updates ++ updatesOf cfg ads.flatten,
          warnings := st.warnings + 1,
          log := st.log ++ ["        Boot Volumes...Warnings "] }, none)) := by
  refine ⟨?_, ?_, ?_, ?_, ?_, ?_⟩
  · exact fun array => handle_instances_ok cfg array compartment rn st
  · exact fun array => handle_block_volumes_ok cfg array compartment rn st
  · exact fun ads => handle_boot_volumes_ok cfg ads compartment rn st
  · exact fun code h => handle_instances_err cfg code compartment rn st h
  · exact fun code h => handle_block_volumes_err cfg code compartment rn st h
  · intro code ads rest h
    unfold handle_boot_volumes
    rw [handle_boot_volumes_ads_early cfg compartment.name rn ads code rest
      (st, Counters.mk 0 0 0) h]
    rw [foldl_process_resource]
    simp

/-- Instantiation of `walkers_report_counters`: the instance walker's result
for one running resource carries the summary line built from its counters
and return value `none`, and a recoverable boot-volume error on the second
availability domain returns `none` with one warning, no summary line, and
the first domain's record and update kept. -/
theorem walkers_report_counters_witness :
    (handle_instances cfgFree (Except.ok [res1]) comp0 "r1" st0 =
      Except.ok ({ st0 with
        data := st0.data ++ recordsOf cfgFree "r1" comp0.name "instance" [res1],
        updates := st0.updates ++ updatesOf cfgFree [res1],
        log := st0.log ++ [kind_summary "        Instances (-)" "        Instances     - "
          cfgFree.deltag (countersOf cfgFree [res1])] }, none)) ∧
    (handle_boot_volumes cfgFree
        ([[res1]].map Except.ok ++ Except.error "LimitExceeded" :: []) comp0 "r1" st0 =
      Except.ok ({ st0 with
        data := st0.data ++ recordsOf cfgFree "r1" comp0.name "boot volume" [[res1]].flatten,
        updates := st0.updates ++ updatesOf cfgFree [[res1]].flatten,
        warnings := st0.warnings + 1,
        log := st0.log ++ ["        Boot Volumes...Warnings "] }, none)) :=
  ⟨(walkers_report_counters cfgFree comp0 "r1" st0).1 [res1],
   (walkers_report_counters cfgFree comp0 "r1" st0).2.2.2.2.2 "LimitExceeded" [[res1]] []
     (by decide)⟩

/-- C7: a resource in lifecycle state `TERMINATING` or `TERMINATED` is
invisible to every walker: the shared loop body returns its accumulator
unchanged on such a resource — so the reconciler result is never used, no
update call is issued and no report record is appended — and, for all three
kinds, removing a terminal resource from the listing leaves the walker's
entire result unchanged. -/
theorem terminal_resources_skipped (cfg : Config) (rn cn rt : String) :
    (∀ (acc : WalkState × Counters) (arr : Resource),
      arr.lifecycle_state = "TERMINATING" ∨ arr.lifecycle_state = "TERMINATED" →
      process_resource cfg rn cn rt acc arr = acc) ∧
    (∀ (compartment : Compartment) (a₁ a₂ : List Resource) (arr : Resource)
        (st : WalkState),
      arr.lifecycle_state = "TERMINATING" ∨ arr.lifecycle_state = "TERMINATED" →
      handle_instances cfg (Except.ok (a₁ ++ arr :: a₂)) compartment rn st =
        handle_instances cfg (Except.ok (a₁ ++ a₂)) compartment rn st) ∧
    (∀ (compartment : Compartment) (a₁ a₂ : List Resource) (arr : Resource)
        (st : WalkState),
      arr.lifecycle_state = "TERMINATING" ∨ arr.lifecycle_state = "TERMINATED" →
      handle_block_volumes cfg (Except.ok (a₁ ++ arr :: a₂)) compartment rn st =
        handle_block_volumes cfg (Except.ok (a₁ ++ a₂)) compartment rn st) ∧
    (∀ (compartment : Compartment) (ads₁ : List (List Resource))
        (a₁ a₂ : List Resource) (ads₂ : List (Except String (List Resource)))
        (arr : Resource) (st : WalkState),
      arr.lifecycle_state = "TERMINATING" ∨ arr.lifecycle_state = "TERMINATED" →
      handle_boot_volumes cfg
          (ads₁.map Except.ok ++ Except.ok (a₁ ++ arr :: a₂) :: ads₂) compartment rn st =
        handle_boot_volumes cfg
          (ads₁.map Except.ok ++ Except.ok (a₁ ++ a₂) :: ads₂) compartment rn st) := by
  refine ⟨?_, ?_, ?_, ?_⟩
  · exact fun acc arr h => process_resource_terminal cfg rn cn rt acc arr h
  · intro compartment a₁ a₂ arr st h
    have hnt := nonTerminal_of_terminal arr h
    rw [handle_instances_ok, handle_instances_ok]
    simp [recordsOf, updatesOf, countersOf, filter_nonTerminal_skip a₁ a₂ arr hnt]
  · intro compartment a₁ a₂ arr st h
    have hnt := nonTerminal_of_terminal arr h
    rw [handle_block_volumes_ok, handle_block_volumes_ok]
    simp [recordsOf, updatesOf, countersOf, filter_nonTerminal_skip a₁ a₂ arr hnt]
  · intro compartment ads₁ a₁ a₂ ads₂ arr st h
    unfold handle_boot_volumes
    have key : ∀ acc, handle_boot_volumes_ads cfg compartment.name rn
        (ads₁.map Except.ok ++ Except.ok (a₁ ++ arr :: a₂) :: ads₂) acc =
      handle_boot_volumes_ads cfg compartment.name rn
        (ads₁.map Except.ok ++ Except.ok (a₁ ++ a₂) :: ads₂) acc := by
      induction ads₁ with
      | nil =>
        intro acc
        simp only [List.map_nil, List.nil_append, handle_boot_volumes_ads]
        rw [foldl_skip_terminal cfg rn compartment.name "boot volume" a₁ a₂ arr acc h]
      | cons x xs ih =>
        intro acc
        simp only [List.map_cons, List.cons_append, handle_boot_volumes_ads]
        exact ih _
    rw [key]

/-- Instantiation of `terminal_resources_skipped`: the loop body ignores a
terminated resource, and the instance walker returns the same result whether
or not the terminated resource appears in the listing. -/
theorem terminal_resources_skipped_witness :
    process_resource cfgFree "r1" "root" "instance" (st0, Counters.mk 0 0 0) resTerm =
      (st0, Counters.mk 0 0 0) ∧
    handle_instances cfgFree (Except.ok [resTerm]) comp0 "r1" st0 =
      handle_instances cfgFree (Except.ok []) comp0 "r1" st0 :=
  ⟨(terminal_resources_skipped cfgFree "r1" "root" "instance").1
      (st0, Counters.mk 0 0 0) resTerm (Or.inr rfl),
   (terminal_resources_skipped cfgFree "r1" "root" "instance").2.1
      comp0 [] [] resTerm st0 (Or.inr rfl)⟩

/-- C10: when the boot-volume listing of one availability domain fails with
a recoverable service error, `handle_boot_volumes` returns at once: the
remaining availability domains (`rest`) do not influence the result at all,
the records and update calls accumulated from the earlier availability
domains are kept, the warning counter is incremented exactly once, and no
summary line is printed. -/
theorem handle_boot_volumes_partial (cfg : Config) (compartment : Compartment)
    (rn : String) (st : WalkState) (ads : List (List Resource)) (code : String)
    (rest : List (Except String (List Resource)))
    (h : check_service_error code = true) :
    handle_boot_volumes cfg (ads.map Except.ok ++ Except.error code :: rest)
        compartment rn st =
      Except.ok ({ st with
        data := st.data ++ recordsOf cfg rn compartment.name "boot volume" ads.flatten,
        updates := st.updates ++ updatesOf cfg ads.flatten,
        warnings := st.warnings + 1,
        log := st.log ++ ["        Boot Volumes...Warnings "] }, none) := by
  unfold handle_boot_volumes
  rw [handle_boot_volumes_ads_early cfg compartment.name rn ads code rest
    (st, Counters.mk 0 0 0) h]
  rw [foldl_process_resource]
  simp

/-- Instantiation of `handle_boot_volumes_partial`: one successful
availability domain followed by a recoverable `NotFound` error keeps the
first domain's record and adds one warning, even though a later availability
domain would have raised a fatal error. -/
theorem handle_boot_volumes_partial_witness :
    handle_boot_volumes cfgFree
        ([[res1]].map Except.ok ++ Except.error "NotFound" :: [Except.error "boom"])
        comp0 "r1" st0 =
      Except.ok ({ st0 with
        data := st0.data ++ recordsOf cfgFree "r1" comp0.name "boot volume" [[res1]].flatten,
        updates := st0.updates ++ updatesOf cfgFree [[res1]].flatten,
        warnings := st0.warnings + 1,
        log := st0.log ++ ["        Boot Volumes...Warnings "] }, none) :=
  handle_boot_volumes_partial cfgFree comp0 "r1" st0 [[res1]] "NotFound"
    [Except.error "boom"] (by decide)

/-- C8: every compartment in the tag script's working set is either the
tenancy root (same id, exempt from the lifecycle filter) or has
lifecycle_state ACTIVE; when a compartment filter is configured the working
set keeps only compartments whose id or name equals the filter exactly, and
the synthesized tenancy root is kept iff it matches the filter; and every
compartment the capres script's loop processes is likewise the tenancy root
or ACTIVE. -/
theorem compartment_working_set (cmdCompartment : String) (tenancy : Compartment)
    (listed : List Compartment) :
    (∀ c ∈ identity_read_compartments cmdCompartment tenancy listed,
      c.id = tenancy.id ∨ c.lifecycle_state = "ACTIVE") ∧
    (cmdCompartment ≠ "" →
      ∀ c ∈ identity_read_compartments cmdCompartment tenancy listed,
        c.id = cmdCompartment ∨ c.name = cmdCompartment) ∧
    (tenancy ∈ identity_read_compartments cmdCompartment tenancy listed ↔
      cmdCompartment = "" ∨ tenancy.id = cmdCompartment ∨ tenancy.name = cmdCompartment) ∧
    (∀ c ∈ capres_processed_compartments tenancy listed,
      c.id = tenancy.id ∨ c.lifecycle_state = "ACTIVE") := by
  refine ⟨?_, ?_, ?_, ?_⟩
  · intro c hc
    simp only [identity_read_compartments, List.mem_filter, Bool.and_eq_true,
      Bool.or_eq_true, beq_iff_eq] at hc
    exact hc.2.1
  · intro hne c hc
    simp only [identity_read_compartments, List.mem_filter, Bool.and_eq_true,
      Bool.or_eq_true, beq_iff_eq, or_assoc] at hc
    rcases hc.2.2 with h | h | h
    · exact absurd h hne
    · exact Or.inl h
    · exact Or.inr h
  · simp only [identity_read_compartments, List.mem_filter, Bool.and_eq_true,
      Bool.or_eq_true, beq_iff_eq, or_assoc]
    simp [List.mem_append]
  · intro c hc
    simp only [capres_processed_compartments, List.mem_filter, Bool.or_eq_true,
      beq_iff_eq] at hc
    exact hc.2

/-- Instantiation of `compartment_working_set` on the spec's scenario: with
filter net-compartment over compartments net-compartment and db-compartment
plus the tenancy root, the retained compartment matches the filter, and the
root is kept iff its id or name equals the filter (here it does not). -/
theorem compartment_working_set_witness :
    (compNet.id = "net-compartment" ∨ compNet.name = "net-compartment") ∧
    (comp0 ∈ identity_read_compartments "net-compartment" comp0 [compNet, compDb] ↔
      ("net-compartment" = "" ∨ comp0.id = "net-compartment" ∨
        comp0.name = "net-compartment")) :=
  ⟨(compartment_working_set "net-compartment" comp0 [compNet, compDb]).2.1
      (by decide) compNet (by decide),
   (compartment_working_set "net-compartment" comp0 [compNet, compDb]).2.2.1⟩

/-- C1 (code bug): in the source, `main` rebinds `data = []` and
`warnings = 0` as locals (lines 675-676, no `global` declaration), while the
handlers mutate the module globals; the `-print` block and the warnings
check (lines 717-722) read the locals.  At a run that accumulates one report
record and one warning in the module globals, the printed report is the
empty array and no warnings header is printed — the accumulated records and
warnings are not the ones visible in the end-of-run output. -/
theorem main_shadowing_bug :
    main_run cfgFree oracle1 ["r1"] [comp0] =
      Except.ok
        { printed_report := some [],
          warnings_header := false,
          final_data := [⟨"r1", "root", "instance", "vm1", [], [("env", "prod")], "Added"⟩],
          final_warnings := 1 } := by
  rfl
